import Mathlib

/-!
Verification of the product_adder repository.

Shallow embedding of the core logic of the repository:
SKU normalization (database.clean_sku_for_comparison,
jds_client.clean_sku_for_external_api), the pricing engine
(pricing_calculator.py), the catalog diff (database.get_unmatched_products,
database.get_matched_products), the sync orchestrator gates
(data_sync.sync_all_data, app.sync_all endpoint), the retry wrappers
(shopify_client), the supplier upsert (jds_client._save_product_to_db) and
the background reconciliation worker (background_sync.py).

Python strings are modelled as List Char, Python floats as rationals, and
dynamically typed price inputs as an inductive PyVal.
-/

namespace ProductAdder

/-- A Python string, modelled as its list of characters. -/
abbrev Str := List Char

/-! ## SKU normalizer (database.clean_sku_for_comparison) -/

/-- The character is not a hyphen. -/
def notHyphen (c : Char) : Bool := c != '-'

/-- Embeds database.clean_sku_for_comparison: `if not sku: return sku`;
if the SKU contains a hyphen, `sku.split('-')` and return the last part
(the substring after the final hyphen, computed here as the longest
hyphen-free suffix); otherwise return the SKU unchanged. -/
def clean_sku_for_comparison (sku : Str) : Str :=
  if sku = [] then sku
  else if '-' ∈ sku then (sku.reverse.takeWhile notHyphen).reverse
  else sku

/-- Embeds jds_client.JDSClient.clean_sku_for_external_api, whose body is
textually identical to database.clean_sku_for_comparison. -/
def clean_sku_for_external_api (sku : Str) : Str :=
  if sku = [] then sku
  else if '-' ∈ sku then (sku.reverse.takeWhile notHyphen).reverse
  else sku

/-- Embeds the None-accepting behaviour of clean_sku_for_comparison:
`if not sku: return sku` returns a None argument unchanged. -/
def clean_sku_opt : Option Str → Option Str
  | Option.none => Option.none
  | Option.some s => Option.some (clean_sku_for_comparison s)

/-! ## Pricing engine (pricing_calculator.py) -/

/-- A dynamically typed Python value arriving in a price field:
None, a number, or a string. -/
inductive PyVal where
  | none
  | num (q : ℚ)
  | str (s : Str)
deriving DecidableEq

/-- Parses a run of decimal digits into a natural number; fails on a
non-digit or on the empty run. -/
def parseDigits : Str → Option ℕ
  | [] => Option.none
  | cs => cs.foldl (fun acc c =>
      acc.bind (fun n => if c.isDigit then Option.some (10 * n + (c.toNat - 48)) else Option.none))
      (Option.some 0)

/-- Model of the Python float(string) coercion on plain decimal literals:
an optional sign, then digits with at most one decimal point (at least one
digit overall). Strings outside this fragment fail to parse. -/
def parseFloatStr (s : Str) : Option ℚ :=
  let core : Str → Option ℚ := fun t =>
    match t.splitOn '.' with
    | [intPart] => (parseDigits intPart).map (fun n => (n : ℚ))
    | [intPart, fracPart] =>
        if intPart = [] ∧ fracPart = [] then Option.none
        else
          let ip := if intPart = [] then Option.some 0 else parseDigits intPart
          let fp := if fracPart = [] then Option.some 0 else parseDigits fracPart
          ip.bind (fun i => fp.map (fun f => (i : ℚ) + (f : ℚ) / ((10 : ℚ) ^ fracPart.length)))
    | _ => Option.none
  match s with
  | '+' :: rest => core rest
  | '-' :: rest => (core rest).map (fun q => -q)
  | _ => core s

/-- Models the Python expression `float(x) if x is not None else 0.0`
wrapped in try/except: None yields 0.0, a number is returned, a string is
parsed; Option.none signals the ValueError/TypeError path. -/
def pyFloat : PyVal → Option ℚ
  | PyVal.none => Option.some 0
  | PyVal.num q => Option.some q
  | PyVal.str s => parseFloatStr s

/-- Python truthiness of a price field value: None, 0 and the empty string
are falsy, everything else is truthy. -/
def truthy : PyVal → Bool
  | PyVal.none => false
  | PyVal.num q => decide (q ≠ 0)
  | PyVal.str s => decide (s ≠ [])

/-- Embeds PricingCalculator.calculate_price instantiated at the two fixed
formulas of the source (regular_formula `math.ceil(x * 2.5) - 0.01`,
under5_formula `x * 3`): for x < 5 the under-5 formula runs, otherwise the
regular one. -/
def calculate_price (x : ℚ) : ℚ :=
  if x < 5 then x * 3 else (⌈x * (5 / 2)⌉ : ℚ) - 1 / 100

/-- Embeds PricingCalculator.calculate_shopify_price: coerce the input to a
float (a failed coercion returns 0.0), return 0.0 for a non-positive value,
otherwise apply calculate_price with both formulas. -/
def calculate_shopify_price (jds_price : PyVal) : ℚ :=
  match pyFloat jds_price with
  | Option.none => 0
  | Option.some x => if x ≤ 0 then 0 else calculate_price x

/-- Embeds PricingCalculator._is_valid_price: the coerced value is strictly
positive, with coercion failure counting as invalid. -/
def is_valid_price (price : PyVal) : Bool :=
  match pyFloat price with
  | Option.none => false
  | Option.some x => decide (0 < x)

/-- The six optional pricing tier fields of a JDS product record as read by
the pricing calculator (jds_product.get of each field). -/
structure JDSRecord where
  less_than_case_price : PyVal
  one_case : PyVal
  five_cases : PyVal
  ten_cases : PyVal
  twenty_cases : PyVal
  forty_cases : PyVal
deriving DecidableEq

/-- Embeds PricingCalculator.calculate_all_tiers: for each tier field that
is truthy and passes _is_valid_price, record the calculated Shopify price
under the tier name, in source order. -/
def calculate_all_tiers (p : JDSRecord) : List (String × ℚ) :=
  (if truthy p.less_than_case_price ∧ is_valid_price p.less_than_case_price then
    [("less_than_case", calculate_shopify_price p.less_than_case_price)] else []) ++
  (if truthy p.one_case ∧ is_valid_price p.one_case then
    [("one_case", calculate_shopify_price p.one_case)] else []) ++
  (if truthy p.five_cases ∧ is_valid_price p.five_cases then
    [("five_cases", calculate_shopify_price p.five_cases)] else []) ++
  (if truthy p.ten_cases ∧ is_valid_price p.ten_cases then
    [("ten_cases", calculate_shopify_price p.ten_cases)] else []) ++
  (if truthy p.twenty_cases ∧ is_valid_price p.twenty_cases then
    [("twenty_cases", calculate_shopify_price p.twenty_cases)] else []) ++
  (if truthy p.forty_cases ∧ is_valid_price p.forty_cases then
    [("forty_cases", calculate_shopify_price p.forty_cases)] else [])

/-- Embeds PricingCalculator.get_recommended_price: 0.0 when the base
less_than_case_price field is falsy, otherwise the calculated Shopify
price for it. -/
def get_recommended_price (p : JDSRecord) : ℚ :=
  if truthy p.less_than_case_price then calculate_shopify_price p.less_than_case_price
  else 0

/-- The validation result returned by validate_pricing_data. -/
structure Validation where
  is_valid : Bool
  errors : List String
  warnings : List String
  calculated_prices : List (String × ℚ)
  recommended_price : ℚ
deriving DecidableEq

/-- True when every one of the six tier fields of the record is falsy
(the negation of the has_any_price check of the source). -/
def allTiersFalsy (p : JDSRecord) : Bool :=
  !(truthy p.less_than_case_price || truthy p.one_case || truthy p.five_cases ||
    truthy p.ten_cases || truthy p.twenty_cases || truthy p.forty_cases)

/-- Embeds PricingCalculator.validate_pricing_data: if no tier field is
truthy, return early with is_valid false and the "No pricing data
available" error; otherwise populate calculated_prices and
recommended_price and append the advisory warnings about the recommended
price. -/
def validate_pricing_data (p : JDSRecord) : Validation :=
  if allTiersFalsy p then
    { is_valid := false, errors := ["No pricing data available"], warnings := [],
      calculated_prices := [], recommended_price := 0 }
  else
    let rp := get_recommended_price p
    let w1 : List String := if rp ≤ 0 then ["No recommended price calculated"] else []
    let w2 : List String :=
      if 0 < rp then
        if 1000 < rp then ["Price seems unusually high"]
        else if rp < 1 then ["Price seems unusually low"]
        else []
      else []
    { is_valid := true, errors := [], warnings := w1 ++ w2,
      calculated_prices := calculate_all_tiers p, recommended_price := rp }

/-! ## Local catalog store rows and the supplier upsert (database.py, jds_client.py) -/

/-- A row of the jds_products table, as loaded into a JDSProduct. -/
structure JDSRow where
  id : ℕ
  sku : Str
  name : Str
  description : Str
  case_quantity : PyVal
  less_than_case_price : PyVal
  one_case : PyVal
  five_cases : PyVal
  ten_cases : PyVal
  twenty_cases : PyVal
  forty_cases : PyVal
  image_url : Str
  thumbnail_url : Str
  quick_image_url : Str
  available_quantity : PyVal
  local_quantity : PyVal
  last_updated : ℕ
deriving DecidableEq

/-- A raw supplier API record as consumed by jds_client: each key of the
camelCase dict is present or absent. -/
structure ProductData where
  sku : Str
  name : Option Str
  description : Option Str
  caseQuantity : Option PyVal
  lessThanCasePrice : Option PyVal
  oneCase : Option PyVal
  fiveCases : Option PyVal
  tenCases : Option PyVal
  twentyCases : Option PyVal
  fortyCases : Option PyVal
  image : Option Str
  thumbnail : Option Str
  quickImage : Option Str
  availableQuantity : Option PyVal
  localQuantity : Option PyVal
deriving DecidableEq

/-- Embeds jds_client.JDSClient._create_product_from_data followed by the
insert branch of JDSProduct.save: every field comes from data.get with its
default, last_updated takes the construction-time datetime.utcnow() (here
the parameter now), and the row id is the fresh rowid. -/
def create_product_from_data (data : ProductData) (now : ℕ) (rowid : ℕ) : JDSRow :=
  { id := rowid
    sku := data.sku
    name := data.name.getD []
    description := data.description.getD []
    case_quantity := (data.caseQuantity).getD PyVal.none
    less_than_case_price := (data.lessThanCasePrice).getD PyVal.none
    one_case := (data.oneCase).getD PyVal.none
    five_cases := (data.fiveCases).getD PyVal.none
    ten_cases := (data.tenCases).getD PyVal.none
    twenty_cases := (data.twentyCases).getD PyVal.none
    forty_cases := (data.fortyCases).getD PyVal.none
    image_url := data.image.getD []
    thumbnail_url := data.thumbnail.getD []
    quick_image_url := data.quickImage.getD []
    available_quantity := (data.availableQuantity).getD PyVal.none
    local_quantity := (data.localQuantity).getD PyVal.none
    last_updated := now }

/-- Embeds jds_client.JDSClient._update_product_from_data: every mutable
field becomes data.get(key, current value); the id, sku and last_updated
attributes of the loaded product are not touched, so the subsequent UPDATE
writes them back unchanged. -/
def update_product_from_data (r : JDSRow) (data : ProductData) : JDSRow :=
  { r with
    name := data.name.getD r.name
    description := data.description.getD r.description
    case_quantity := (data.caseQuantity).getD r.case_quantity
    less_than_case_price := (data.lessThanCasePrice).getD r.less_than_case_price
    one_case := (data.oneCase).getD r.one_case
    five_cases := (data.fiveCases).getD r.five_cases
    ten_cases := (data.tenCases).getD r.ten_cases
    twenty_cases := (data.twentyCases).getD r.twenty_cases
    forty_cases := (data.fortyCases).getD r.forty_cases
    image_url := data.image.getD r.image_url
    thumbnail_url := data.thumbnail.getD r.thumbnail_url
    quick_image_url := data.quickImage.getD r.quick_image_url
    available_quantity := (data.availableQuantity).getD r.available_quantity
    local_quantity := (data.localQuantity).getD r.local_quantity }

/-- A rowid strictly greater than every id in the table, standing for the
sqlite lastrowid of a fresh insert. -/
def freshId (db : List JDSRow) : ℕ :=
  (db.map (fun r => r.id)).foldr max 0 + 1

/-- Embeds jds_client.JDSClient._save_product_to_db over the list of rows:
an empty SKU raises ValueError (Option.none); otherwise the row is looked
up by raw sku, and either updated in place via _update_product_from_data
and JDSProduct.save (UPDATE keyed by id) or freshly inserted. -/
def save_product_to_db (db : List JDSRow) (data : ProductData) (now : ℕ) :
    Option (List JDSRow) :=
  if data.sku = [] then Option.none
  else
    match db.find? (fun r => decide (r.sku = data.sku)) with
    | Option.some row =>
        Option.some (db.map (fun r =>
          if r.id = row.id then update_product_from_data r data else r))
    | Option.none =>
        Option.some (db ++ [create_product_from_data data now (freshId db)])

/-! ## Catalog diff (database.get_unmatched_products / get_matched_products) -/

/-- Embeds database.get_unmatched_products on the two tables: the set of
Shopify SKUs is built by cleaning every storefront sku, and a JDS product
is kept iff its cleaned sku is not in that set. -/
def get_unmatched_products (jds : List JDSRow) (shopSkus : List Str) : List JDSRow :=
  let shopify_skus := shopSkus.map clean_sku_for_comparison
  jds.filter (fun p => decide (clean_sku_for_comparison p.sku ∉ shopify_skus))

/-- Embeds database.get_matched_products: a JDS product is kept iff its
cleaned sku is in the set of cleaned storefront SKUs. -/
def get_matched_products (jds : List JDSRow) (shopSkus : List Str) : List JDSRow :=
  let shopify_skus := shopSkus.map clean_sku_for_comparison
  jds.filter (fun p => decide (clean_sku_for_comparison p.sku ∈ shopify_skus))

/-- The matching rule the code actually applies: both sides cleaned. -/
def codeMatched (p : JDSRow) (shopSkus : List Str) : Prop :=
  clean_sku_for_comparison p.sku ∈ shopSkus.map clean_sku_for_comparison

/-- The matching rule as the claim words it: the supplier comparison key
equals some storefront sku taken as-is, with no cleaning applied to the
storefront side. -/
def specMatched (p : JDSRow) (shopSkus : List Str) : Prop :=
  clean_sku_for_comparison p.sku ∈ shopSkus

instance (p : JDSRow) (s : List Str) : Decidable (codeMatched p s) := by
  unfold codeMatched; infer_instance

instance (p : JDSRow) (s : List Str) : Decidable (specMatched p s) := by
  unfold specMatched; infer_instance

/-! ## Sync orchestrator gates (data_sync.py, app.py) -/

/-- Result dict of DataSyncManager.sync_all_data: the overall success flag,
the message, and the recorded per-side results (Option.none when the early
skip return leaves them as the initial empty dicts). -/
structure SyncAllResult where
  success : Bool
  message : String
  jds_sync : Option Bool
  shopify_sync : Option Bool
  attempts : List String
deriving DecidableEq

/-- Embeds DataSyncManager._should_skip_sync: no last sync means no skip;
otherwise skip iff less than 5 minutes (300 seconds) have elapsed. -/
def should_skip_sync (mgr_last : Option ℚ) (now : ℚ) : Bool :=
  match mgr_last with
  | Option.none => false
  | Option.some t => decide (now - t < 300)

/-- Embeds DataSyncManager.sync_all_data with the outcomes of the two side
syncs passed as jdsSuccess and shopSuccess: unless the cooldown skip fires,
both sides are attempted and recorded (attempts lists the calls in source
order, sync_jds_data before sync_shopify_data), success starts true and is
cleared only when both sides failed, and the message names the failing
side. -/
def sync_all_data (force : Bool) (mgr_last : Option ℚ) (now : ℚ)
    (jdsSuccess shopSuccess : Bool) : SyncAllResult :=
  if !force && should_skip_sync mgr_last now then
    { success := true, message := "Sync skipped - recently synced",
      jds_sync := Option.none, shopify_sync := Option.none, attempts := [] }
  else
    { success := !(!jdsSuccess && !shopSuccess),
      message :=
        if !jdsSuccess && !shopSuccess then "Both JDS and Shopify sync failed"
        else if !jdsSuccess then "JDS sync failed, but Shopify sync succeeded"
        else if !shopSuccess then "Shopify sync failed, but JDS sync succeeded"
        else "All data synced successfully",
      jds_sync := Option.some jdsSuccess, shopify_sync := Option.some shopSuccess,
      attempts := ["jds", "shopify"] }

/-- Response of the app.sync_all endpoint: either the 429 cooldown payload
with its cooldown_remaining field, or the result of sync_all_data. -/
inductive SyncAllResponse where
  | cooldown (remaining : ℚ)
  | result (r : SyncAllResult)
deriving DecidableEq

/-- The attribute surface of the database module: its imports, module
globals, classes and top-level functions, in source order. A statement
`from database import name` succeeds exactly for these names. -/
def database_toplevel : List String :=
  ["sqlite3", "os", "logging", "datetime",
   "List", "Dict", "Any", "Optional", "Tuple",
   "cache_manager", "cached", "cache_key_for_unmatched_products",
   "cache_key_for_matched_products", "cache_key_for_comparison_stats",
   "time_function", "record_metric", "logger",
   "SimpleDB", "JDSProduct", "ShopifyProduct", "db",
   "init_db", "clean_sku_for_comparison", "get_unmatched_products",
   "get_matched_products", "get_sku_comparison_stats", "get_shopify_price_for_sku",
   "get_matched_products_with_shopify_prices", "get_product_count",
   "get_unmatched_products_optimized", "get_matched_products_optimized",
   "get_sku_comparison_stats_optimized", "get_shopify_skus_cached",
   "get_products_with_pricing_optimized", "optimize_database", "get_database_stats"]

/-- `from database import name` succeeds iff the database module has the
attribute; otherwise Python raises ImportError. -/
def fromDatabaseImportOk (name : String) : Bool :=
  database_toplevel.contains name

/-- The HTTP answer of the app.sync_all route: a payload returned from the
try body (the 429 cooldown dict or the jsonified sync result), or the 500
response produced by the `except Exception` handler. -/
inductive HttpResponse where
  | payload (r : SyncAllResponse)
  | serverError
deriving DecidableEq

/-- What a call of the app.sync_all route did: the HTTP response, and
whether sync_all_data was invoked before the response was produced (its
side effects happened even when the route then answered with an error). -/
structure RouteOutcome where
  response : HttpResponse
  sync_ran : Bool
deriving DecidableEq

/-- Embeds the app.sync_all route, imports included. With force false it
first executes `from database import get_last_sync_time`; only when that
name resolves does it compare the persisted last sync time against the
600 second window and return the 429 payload carrying cooldown_remaining
= 600 - time_since_sync. Past the gate it runs sync_all_data and then
executes `from database import record_sync_operation` before answering.
An ImportError is caught by the route's `except Exception` handler, which
answers 500. -/
def sync_all_route (force : Bool) (db_last : Option ℚ) (mgr_last : Option ℚ)
    (now : ℚ) (jdsSuccess shopSuccess : Bool) : RouteOutcome :=
  let run : RouteOutcome :=
    let r := sync_all_data force mgr_last now jdsSuccess shopSuccess
    if fromDatabaseImportOk "record_sync_operation" then
      { response := HttpResponse.payload (SyncAllResponse.result r), sync_ran := true }
    else
      { response := HttpResponse.serverError, sync_ran := true }
  if !force then
    if fromDatabaseImportOk "get_last_sync_time" then
      match db_last with
      | Option.some t =>
          if now - t < 600 then
            { response := HttpResponse.payload (SyncAllResponse.cooldown (600 - (now - t))),
              sync_ran := false }
          else run
      | Option.none => run
    else
      { response := HttpResponse.serverError, sync_ran := false }
  else run

/-! ## Storefront client retry wrappers (shopify_client.py) -/

/-- A structured result dict of create_product / update_product_price. -/
structure ShopResult where
  success : Bool
  error : Str
deriving DecidableEq

/-- The pattern is an initial segment of the character list. -/
def startsWithChars : Str → Str → Bool
  | [], _ => true
  | _ :: _, [] => false
  | p :: ps, c :: cs => p = c && startsWithChars ps cs

/-- The pattern occurs as a contiguous substring of the character list. -/
def hasSubstr (pat : Str) : Str → Bool
  | [] => startsWithChars pat []
  | c :: cs => startsWithChars pat (c :: cs) || hasSubstr pat cs

/-- Models the Python test `pat in result.get(..., '').lower()`. -/
def lowerContains (pat : Str) (s : Str) : Bool :=
  hasSubstr pat (s.map Char.toLower)

/-- The error is classified as a validation error (never retried). -/
def isValidationError (r : ShopResult) : Bool :=
  lowerContains "validation".toList r.error

/-- The error is classified as rate limiting (the only retried class). -/
def isRateLimitError (r : ShopResult) : Bool :=
  lowerContains "rate limit".toList r.error

/-- Trace of one run of a retry wrapper: the returned result, the number of
calls made to the wrapped operation, and the backoff waits slept between
calls, in order. -/
structure RetryTrace where
  result : ShopResult
  calls : ℕ
  waits : List ℕ
deriving DecidableEq

/-- One iteration family of the retry for-loop of shopify_client: fuel
counts the remaining iterations of `for attempt in range(max_retries + 1)`
starting at attempt. A success or a validation-classified error returns at
once; a rate-limit-classified error with attempts left sleeps
2 ^ attempt + 1 seconds and retries; any other error returns at once. -/
def retryGo (op : ℕ → ShopResult) (maxRetries : ℕ) : ℕ → ℕ → RetryTrace
  | _, 0 =>
      { result := { success := false, error := "Max retries exceeded".toList },
        calls := 0, waits := [] }
  | attempt, fuel + 1 =>
      let r := op attempt
      if r.success || isValidationError r then { result := r, calls := 1, waits := [] }
      else if isRateLimitError r && decide (attempt < maxRetries) then
        let t := retryGo op maxRetries (attempt + 1) fuel
        { result := t.result, calls := t.calls + 1, waits := (2 ^ attempt + 1) :: t.waits }
      else { result := r, calls := 1, waits := [] }

/-- Embeds ShopifyClient.update_product_price_with_retry with its
max_retries = 3 default, over the sequence of results the wrapped
update_product_price call produces on successive attempts. -/
def update_product_price_with_retry (op : ℕ → ShopResult) : RetryTrace :=
  retryGo op 3 0 4

/-- Embeds ShopifyClient.create_product_with_retry, whose loop body is
textually identical to update_product_price_with_retry. -/
def create_product_with_retry (op : ℕ → ShopResult) : RetryTrace :=
  retryGo op 3 0 4

/-! ## Background reconciliation worker (background_sync.py) -/

/-- The three SKU collections of BackgroundSyncManager: the pending and
completed sets, and the key set of the failed_syncs message dict. -/
structure BGState where
  pending : Finset Str
  completed : Finset Str
  failed : Finset Str
deriving DecidableEq

/-- Embeds BackgroundSyncManager.request_sync: enqueue and return true iff
the SKU is in neither completed_syncs nor pending_syncs. -/
def request_sync (s : BGState) (sku : Str) : BGState × Bool :=
  if sku ∉ s.completed ∧ sku ∉ s.pending then
    ({ s with pending := insert sku s.pending }, true)
  else (s, false)

/-- One transition of the worker system: a request_sync call, or one
_worker_loop iteration popping a pending SKU and recording its outcome in
completed_syncs or failed_syncs. -/
inductive BGStep : BGState → BGState → Prop where
  | request (s : BGState) (sku : Str) : BGStep s (request_sync s sku).1
  | processSuccess (s : BGState) (sku : Str) (h : sku ∈ s.pending) :
      BGStep s { pending := s.pending.erase sku,
                 completed := insert sku s.completed, failed := s.failed }
  | processFailure (s : BGState) (sku : Str) (h : sku ∈ s.pending) :
      BGStep s { pending := s.pending.erase sku,
                 completed := s.completed, failed := insert sku s.failed }

/-- The constructor state of BackgroundSyncManager: all collections empty. -/
def BGInit : BGState := { pending := ∅, completed := ∅, failed := ∅ }

/-- A state the worker system can reach from the initial state. -/
def BGReachable (s : BGState) : Prop :=
  Relation.ReflTransGen BGStep BGInit s

/-! ## Lemmas about the SKU normalizer -/

lemma dropWhile_head_false {p : Char → Bool} :
    ∀ (l : Str) (c : Char) (rest : Str), l.dropWhile p = c :: rest → p c = false := by
  intro l
  induction l with
  | nil => intro c rest h; simp [List.dropWhile] at h
  | cons a as ih =>
      intro c rest h
      by_cases hpa : p a
      · rw [List.dropWhile_cons_of_pos hpa] at h
        exact ih c rest h
      · rw [List.dropWhile_cons_of_neg hpa] at h
        obtain ⟨rfl, -⟩ := List.cons.inj h
        exact Bool.eq_false_iff.mpr hpa

lemma clean_eq_takeWhile (s : Str) (hne : s ≠ []) (h : '-' ∈ s) :
    clean_sku_for_comparison s = (s.reverse.takeWhile notHyphen).reverse := by
  unfold clean_sku_for_comparison
  simp [hne, h]

lemma hyphen_not_mem_clean (s : Str) (h : '-' ∈ s) :
    '-' ∉ clean_sku_for_comparison s := by
  have hne : s ≠ [] := by rintro rfl; simp at h
  rw [clean_eq_takeWhile s hne h]
  intro hmem
  rw [List.mem_reverse] at hmem
  have := List.mem_takeWhile_imp hmem
  simp [notHyphen] at this

lemma clean_eq_self_of_not_mem (s : Str) (h : '-' ∉ s) :
    clean_sku_for_comparison s = s := by
  unfold clean_sku_for_comparison
  by_cases hne : s = [] <;> simp [hne, h]

lemma clean_after_last_hyphen (s : Str) (h : '-' ∈ s) :
    ∃ pre, s = pre ++ '-' :: clean_sku_for_comparison s := by
  have hne : s ≠ [] := by rintro rfl; simp at h
  have hr : '-' ∈ s.reverse := by simpa using h
  have hd : s.reverse.dropWhile notHyphen ≠ [] := by
    rw [Ne, List.dropWhile_eq_nil_iff]
    push_neg
    exact ⟨'-', hr, by simp [notHyphen]⟩
  obtain ⟨c, rest, hcr⟩ := List.exists_cons_of_ne_nil hd
  have hc : c = '-' := by
    have := dropWhile_head_false s.reverse c rest hcr
    simpa [notHyphen] using this
  refine ⟨rest.reverse, ?_⟩
  have hsplit : s.reverse.takeWhile notHyphen ++ s.reverse.dropWhile notHyphen = s.reverse :=
    List.takeWhile_append_dropWhile notHyphen s.reverse
  rw [clean_eq_takeWhile s hne h]
  have hs : s = (s.reverse.takeWhile notHyphen ++ s.reverse.dropWhile notHyphen).reverse := by
    rw [hsplit, List.reverse_reverse]
  conv_lhs => rw [hs]
  rw [hcr, hc]
  simp

lemma clean_idempotent (s : Str) :
    clean_sku_for_comparison (clean_sku_for_comparison s) = clean_sku_for_comparison s := by
  by_cases h : '-' ∈ s
  · exact clean_eq_self_of_not_mem _ (hyphen_not_mem_clean s h)
  · rw [clean_eq_self_of_not_mem s h, clean_eq_self_of_not_mem s h]

/-- C9: for every SKU string s, the normalizer is deterministic and total:
if s contains a hyphen it returns the substring after the last hyphen (a
hyphen-free suffix preceded by a hyphen), otherwise it returns s
unchanged; None input is returned unchanged without raising; it is
idempotent; the four concrete examples hold; and the jds_client copy of
the function agrees everywhere. -/
theorem claim_C9_normalizer :
    (∀ s : Str, '-' ∈ s →
      '-' ∉ clean_sku_for_comparison s ∧
      ∃ pre, s = pre ++ '-' :: clean_sku_for_comparison s) ∧
    (∀ s : Str, '-' ∉ s → clean_sku_for_comparison s = s) ∧
    clean_sku_opt Option.none = Option.none ∧
    (∀ s : Str,
      clean_sku_for_comparison (clean_sku_for_comparison s) = clean_sku_for_comparison s) ∧
    clean_sku_for_comparison "ABC-123".toList = "123".toList ∧
    clean_sku_for_comparison "123".toList = "123".toList ∧
    clean_sku_for_comparison "".toList = "".toList ∧
    clean_sku_for_comparison "A-B-123".toList = "123".toList ∧
    (∀ s : Str, clean_sku_for_external_api s = clean_sku_for_comparison s) := by
  refine ⟨fun s h => ⟨hyphen_not_mem_clean s h, clean_after_last_hyphen s h⟩,
    clean_eq_self_of_not_mem, rfl, clean_idempotent, by decide, by decide, by decide,
    by decide, fun s => rfl⟩

/-- Witness for C9 at concrete inputs: the SKU "AB-12" contains a hyphen
and its comparison key "12" is a hyphen-free suffix preceded by a hyphen,
while the hyphen-free SKU "123" is returned unchanged. -/
theorem claim_C9_normalizer_witness :
    ('-' ∈ "AB-12".toList ∧
      '-' ∉ clean_sku_for_comparison "AB-12".toList ∧
      ∃ pre, "AB-12".toList = pre ++ '-' :: clean_sku_for_comparison "AB-12".toList) ∧
    ('-' ∉ "123".toList ∧ clean_sku_for_comparison "123".toList = "123".toList) :=
  ⟨⟨by decide, claim_C9_normalizer.1 "AB-12".toList (by decide)⟩,
   ⟨by decide, claim_C9_normalizer.2.1 "123".toList (by decide)⟩⟩

/-! ## C1: matched / unmatched catalog diff -/

/-- A supplier row carrying only a SKU, with every other field at its
neutral default, used for concrete instances. -/
def mkRow (sku : Str) : JDSRow :=
  { id := 1, sku := sku, name := [], description := [], case_quantity := PyVal.none,
    less_than_case_price := PyVal.none, one_case := PyVal.none, five_cases := PyVal.none,
    ten_cases := PyVal.none, twenty_cases := PyVal.none, forty_cases := PyVal.none,
    image_url := [], thumbnail_url := [], quick_image_url := [],
    available_quantity := PyVal.none, local_quantity := PyVal.none, last_updated := 0 }

lemma length_filter_partition {α : Type} (p : α → Bool) (l : List α) :
    (l.filter p).length + (l.filter (fun a => !(p a))).length = l.length := by
  induction l with
  | nil => simp
  | cons a as ih =>
      by_cases h : p a <;> simp [h] <;> omega

/-- C1 counterexample: with the storefront sku "X-123" and the supplier
sku "123", the claim as stated makes the supplier product unmatched (its
comparison key "123" equals no storefront sku taken as-is), yet
get_unmatched_products omits it, because the code also cleans the
storefront SKUs before comparing. -/
theorem claim_C1_counterexample :
    ¬ specMatched (mkRow "123".toList) ["X-123".toList] ∧
    get_unmatched_products [mkRow "123".toList] ["X-123".toList] = [] := by
  constructor
  · decide
  · rfl

/-- C1 amended: a supplier product is matched iff its comparison key equals
the comparison key of some storefront sku (the storefront side is cleaned
too); get_unmatched_products returns exactly the supplier products that
are not matched in this sense, get_matched_products exactly the matched
ones, and the two lists partition the supplier products. -/
theorem claim_C1_match_partition :
    ∀ (jds : List JDSRow) (shop : List Str),
      (∀ p, p ∈ get_unmatched_products jds shop ↔ p ∈ jds ∧ ¬ codeMatched p shop) ∧
      (∀ p, p ∈ get_matched_products jds shop ↔ p ∈ jds ∧ codeMatched p shop) ∧
      (get_matched_products jds shop).length + (get_unmatched_products jds shop).length
        = jds.length ∧
      (∀ p, ¬ (p ∈ get_matched_products jds shop ∧ p ∈ get_unmatched_products jds shop)) := by
  intro jds shop
  refine ⟨?_, ?_, ?_, ?_⟩
  · intro p
    simp [get_unmatched_products, List.mem_filter, codeMatched]
  · intro p
    simp [get_matched_products, List.mem_filter, codeMatched]
  · have h := length_filter_partition
      (fun p => decide (clean_sku_for_comparison p.sku ∈ shop.map clean_sku_for_comparison)) jds
    simp only [get_matched_products, get_unmatched_products]
    rw [← h]
    congr 1
    · congr 1
      apply List.filter_congr
      intro x hx
      rw [← decide_not, decide_eq_decide]
  · intro p hp
    obtain ⟨h1, h2⟩ := hp
    simp only [get_matched_products, get_unmatched_products, List.mem_filter] at h1 h2
    simp only [decide_eq_true_eq] at h1 h2
    exact h2.2 h1.2

/-- Witness for C1 at a concrete catalog: supplier SKUs "A-1" and "B-2"
against the storefront SKU "X-1"; "A-1" is matched (key "1" on both
sides), "B-2" is unmatched, and the two lists partition the catalog. -/
theorem claim_C1_match_partition_witness :
    (mkRow "B-2".toList ∈
        get_unmatched_products [mkRow "A-1".toList, mkRow "B-2".toList] ["X-1".toList] ↔
      mkRow "B-2".toList ∈ [mkRow "A-1".toList, mkRow "B-2".toList] ∧
        ¬ codeMatched (mkRow "B-2".toList) ["X-1".toList]) ∧
    (get_matched_products [mkRow "A-1".toList, mkRow "B-2".toList] ["X-1".toList]).length +
        (get_unmatched_products [mkRow "A-1".toList, mkRow "B-2".toList] ["X-1".toList]).length
      = 2 :=
  ⟨(claim_C1_match_partition [mkRow "A-1".toList, mkRow "B-2".toList] ["X-1".toList]).1
      (mkRow "B-2".toList),
   (claim_C1_match_partition [mkRow "A-1".toList, mkRow "B-2".toList] ["X-1".toList]).2.2.1⟩

/-! ## C2, C3: the markup rule -/

/-- C2: for every wholesale amount, possibly a string: a value coercing to
x with 0 < x < 5 prices at x * 3; a value coercing to x with 5 ≤ x prices
at ceil(x * 2.5) - 0.01 (the boundary x = 5 takes this regular branch); a
non-positive value prices at 0; a failed coercion prices at 0 without
raising; and the string "4.50" prices the same as the number 4.50. -/
theorem claim_C2_markup_rule :
    (∀ (v : PyVal) (x : ℚ), pyFloat v = Option.some x → 0 < x → x < 5 →
      calculate_shopify_price v = x * 3) ∧
    (∀ (v : PyVal) (x : ℚ), pyFloat v = Option.some x → 5 ≤ x →
      calculate_shopify_price v = (⌈x * (5 / 2)⌉ : ℚ) - 1 / 100) ∧
    (∀ (v : PyVal) (x : ℚ), pyFloat v = Option.some x → x ≤ 0 →
      calculate_shopify_price v = 0) ∧
    (∀ v : PyVal, pyFloat v = Option.none → calculate_shopify_price v = 0) ∧
    calculate_shopify_price (PyVal.str "4.50".toList) =
      calculate_shopify_price (PyVal.num (45 / 10)) := by
  refine ⟨?_, ?_, ?_, ?_, ?_⟩
  · intro v x h h0 h5
    simp only [calculate_shopify_price, h, calculate_price]
    rw [if_neg (by linarith), if_pos h5]
  · intro v x h h5
    simp only [calculate_shopify_price, h, calculate_price]
    rw [if_neg (by linarith), if_neg (by linarith)]
  · intro v x h h0
    simp only [calculate_shopify_price, h]
    rw [if_pos h0]
  · intro v h
    simp only [calculate_shopify_price, h]
  · have hp : parseFloatStr "4.50".toList = Option.some ((4 : ℚ) + 50 / 10 ^ 2) := rfl
    simp only [calculate_shopify_price, pyFloat]
    rw [hp]
    norm_num [calculate_price]

/-- Witness for C2 at concrete inputs: the number 2 sits in the under-5
band and prices at 2 * 3, the number 5 takes the regular branch, the
number 0 and the unparseable string "abc" price at 0. -/
theorem claim_C2_markup_rule_witness :
    (pyFloat (PyVal.num 2) = Option.some 2 ∧ (0 : ℚ) < 2 ∧ (2 : ℚ) < 5 ∧
      calculate_shopify_price (PyVal.num 2) = 2 * 3) ∧
    (pyFloat (PyVal.num 5) = Option.some 5 ∧ (5 : ℚ) ≤ 5 ∧
      calculate_shopify_price (PyVal.num 5) = (⌈(5 : ℚ) * (5 / 2)⌉ : ℚ) - 1 / 100) ∧
    (pyFloat (PyVal.num 0) = Option.some 0 ∧ (0 : ℚ) ≤ 0 ∧
      calculate_shopify_price (PyVal.num 0) = 0) ∧
    (pyFloat (PyVal.str "abc".toList) = Option.none ∧
      calculate_shopify_price (PyVal.str "abc".toList) = 0) :=
  ⟨⟨rfl, by norm_num, by norm_num,
      claim_C2_markup_rule.1 (PyVal.num 2) 2 rfl (by norm_num) (by norm_num)⟩,
   ⟨rfl, by norm_num,
      claim_C2_markup_rule.2.1 (PyVal.num 5) 5 rfl (by norm_num)⟩,
   ⟨rfl, by norm_num,
      claim_C2_markup_rule.2.2.1 (PyVal.num 0) 0 rfl (by norm_num)⟩,
   ⟨rfl, claim_C2_markup_rule.2.2.2.1 (PyVal.str "abc".toList) rfl⟩⟩

/-- C3 counterexample: the claim states price(5.00) = ceil(5.00 * 2.5) -
0.01 = 12.49, but ceil(12.5) = 13 so the computed price is 12.99, which
differs from 12.49. -/
theorem claim_C3_counterexample :
    calculate_shopify_price (PyVal.num 5) = 1299 / 100 ∧
    (1299 : ℚ) / 100 ≠ 1249 / 100 := by
  constructor
  · have h : (⌈(25 : ℚ) / 2⌉ : ℤ) = 13 := by
      rw [Int.ceil_eq_iff] ; norm_num
    simp only [calculate_shopify_price, pyFloat, calculate_price]
    norm_num [h]
  · norm_num

/-- C3 amended: the concrete pricing values hold with 12.99 in place of
12.49: price(4.99) = 4.99 * 3, price(5.00) = ceil(5.00 * 2.5) - 0.01 =
12.99, price(0) = 0, and the string "4.50" prices the same as the number
4.50. -/
theorem claim_C3_pricing_values :
    calculate_shopify_price (PyVal.num (499 / 100)) = (499 / 100) * 3 ∧
    calculate_shopify_price (PyVal.num 5) = (⌈(5 : ℚ) * (5 / 2)⌉ : ℚ) - 1 / 100 ∧
    calculate_shopify_price (PyVal.num 5) = 1299 / 100 ∧
    calculate_shopify_price (PyVal.num 0) = 0 ∧
    calculate_shopify_price (PyVal.str "4.50".toList) =
      calculate_shopify_price (PyVal.num (45 / 10)) := by
  have h : (⌈(25 : ℚ) / 2⌉ : ℤ) = 13 := by
    rw [Int.ceil_eq_iff] ; norm_num
  refine ⟨?_, ?_, ?_, ?_, ?_⟩
  · simp only [calculate_shopify_price, pyFloat, calculate_price]
    norm_num
  · simp only [calculate_shopify_price, pyFloat, calculate_price]
    norm_num
  · simp only [calculate_shopify_price, pyFloat, calculate_price]
    norm_num [h]
  · simp only [calculate_shopify_price, pyFloat]
    norm_num
  · have hp : parseFloatStr "4.50".toList = Option.some ((4 : ℚ) + 50 / 10 ^ 2) := rfl
    simp only [calculate_shopify_price, pyFloat]
    rw [hp]
    norm_num [calculate_price]

/-! ## C4: pricing validation -/

lemma calculate_all_tiers_nil (p : JDSRecord) (h : allTiersFalsy p = true) :
    calculate_all_tiers p = [] := by
  unfold allTiersFalsy at h
  simp only [Bool.not_eq_true', Bool.or_eq_false_iff] at h
  obtain ⟨⟨⟨⟨⟨h1, h2⟩, h3⟩, h4⟩, h5⟩, h6⟩ := h
  simp [calculate_all_tiers, h1, h2, h3, h4, h5, h6]

lemma get_recommended_price_zero (p : JDSRecord) (h : allTiersFalsy p = true) :
    get_recommended_price p = 0 := by
  unfold allTiersFalsy at h
  simp only [Bool.not_eq_true', Bool.or_eq_false_iff] at h
  simp [get_recommended_price, h.1.1.1.1.1]

/-- C4: validate_pricing_data reports is_valid false with the
"No pricing data available" error exactly when all six tier fields are
falsy; on every input its calculated_prices and recommended_price agree
with calculate_all_tiers and get_recommended_price; and is_valid depends
only on the presence of pricing data, so the advisory price-range
warnings never make the record invalid. -/
theorem claim_C4_validate_pricing :
    ∀ p : JDSRecord,
      ((validate_pricing_data p).is_valid = false ∧
        "No pricing data available" ∈ (validate_pricing_data p).errors ↔
          allTiersFalsy p = true) ∧
      (validate_pricing_data p).calculated_prices = calculate_all_tiers p ∧
      (validate_pricing_data p).recommended_price = get_recommended_price p ∧
      (validate_pricing_data p).is_valid = !(allTiersFalsy p) := by
  intro p
  by_cases hf : allTiersFalsy p = true
  · simp [validate_pricing_data, hf, calculate_all_tiers_nil p hf,
      get_recommended_price_zero p hf]
  · simp only [Bool.not_eq_true] at hf
    simp [validate_pricing_data, hf]

/-- A record with every tier field absent. -/
def emptyRecord : JDSRecord :=
  { less_than_case_price := PyVal.none, one_case := PyVal.none, five_cases := PyVal.none,
    ten_cases := PyVal.none, twenty_cases := PyVal.none, forty_cases := PyVal.none }

/-- A record whose only price is the base tier, given as the string "9". -/
def strRecord : JDSRecord :=
  { emptyRecord with less_than_case_price := PyVal.str "9".toList }

/-- Witness for C4 at concrete records: the empty record is invalid with
the no-pricing-data error, while a record with a base price is valid. -/
theorem claim_C4_validate_pricing_witness :
    ((validate_pricing_data emptyRecord).is_valid = false ∧
      "No pricing data available" ∈ (validate_pricing_data emptyRecord).errors) ∧
    (validate_pricing_data strRecord).is_valid = true :=
  ⟨(claim_C4_validate_pricing emptyRecord).1.mpr rfl,
   by rw [(claim_C4_validate_pricing strRecord).2.2.2] ; rfl⟩

/-! ## C5: cooldown gate; C8: partial-failure semantics -/

/-- C5: the names the sync_all route imports from the database module do
not exist there, so every force=false call answers the 500 error response
of the exception handler without running the sync and without ever
reaching the 600 second comparison or the cooldown_remaining payload; a
force=true call runs the sync but also answers 500 when it then imports
record_sync_operation. The only reachable gate is the 5 minute one inside
sync_all_data, whose skip result carries no cooldown_remaining. -/
theorem claim_C5_cooldown_gate :
    fromDatabaseImportOk "get_last_sync_time" = false ∧
    fromDatabaseImportOk "record_sync_operation" = false ∧
    (∀ (db_last mgr_last : Option ℚ) (now : ℚ) (j s : Bool),
      sync_all_route false db_last mgr_last now j s
        = { response := HttpResponse.serverError, sync_ran := false }) ∧
    (∀ (db_last mgr_last : Option ℚ) (now : ℚ) (j s : Bool),
      sync_all_route true db_last mgr_last now j s
        = { response := HttpResponse.serverError, sync_ran := true }) ∧
    (∀ (mgr_last : Option ℚ) (now : ℚ) (j s : Bool) (t : ℚ),
      mgr_last = Option.some t → now - t < 300 →
      sync_all_data false mgr_last now j s
        = { success := true, message := "Sync skipped - recently synced",
            jds_sync := Option.none, shopify_sync := Option.none, attempts := [] }) := by
  have h1 : fromDatabaseImportOk "get_last_sync_time" = false := by decide
  have h2 : fromDatabaseImportOk "record_sync_operation" = false := by decide
  refine ⟨h1, h2, ?_, ?_, ?_⟩
  · intro db_last mgr_last now j s
    simp [sync_all_route, h1]
  · intro db_last mgr_last now j s
    simp [sync_all_route, h2]
  · intro mgr_last now j s t ht hnear
    subst ht
    simp [sync_all_data, should_skip_sync, hnear]

/-- Witness for C5 at a concrete call: with the last sync recorded 100
seconds ago, the unforced route call answers the 500 error without
syncing, and the inner gate of sync_all_data skips with its plain skip
message. -/
theorem claim_C5_cooldown_gate_witness :
    sync_all_route false (Option.some 0) (Option.some 0) 100 true true
      = { response := HttpResponse.serverError, sync_ran := false } ∧
    ((Option.some (0 : ℚ)) = Option.some 0 ∧ (100 : ℚ) - 0 < 300 ∧
      sync_all_data false (Option.some 0) 100 true true
        = { success := true, message := "Sync skipped - recently synced",
            jds_sync := Option.none, shopify_sync := Option.none, attempts := [] }) :=
  ⟨claim_C5_cooldown_gate.2.2.1 (Option.some 0) (Option.some 0) 100 true true,
   rfl, by norm_num,
   claim_C5_cooldown_gate.2.2.2.2 (Option.some 0) 100 true true 0 rfl (by norm_num)⟩

/-- C8: whenever sync_all_data is not skipped by its gate, both side syncs
are attempted in source order (supplier first) and recorded; overall
success holds iff at least one side succeeded; and the message takes one
of four pairwise distinct strings distinguishing both-failed, exactly one
failed (naming which side), and all-succeeded. -/
theorem claim_C8_partial_failure :
    ∀ (force : Bool) (mgr_last : Option ℚ) (now : ℚ) (j s : Bool),
      (!force && should_skip_sync mgr_last now) = false →
      (sync_all_data force mgr_last now j s).attempts = ["jds", "shopify"] ∧
      (sync_all_data force mgr_last now j s).jds_sync = Option.some j ∧
      (sync_all_data force mgr_last now j s).shopify_sync = Option.some s ∧
      ((sync_all_data force mgr_last now j s).success = true ↔ (j = true ∨ s = true)) ∧
      (sync_all_data force mgr_last now j s).message =
        (if j then if s then "All data synced successfully"
                   else "Shopify sync failed, but JDS sync succeeded"
         else if s then "JDS sync failed, but Shopify sync succeeded"
              else "Both JDS and Shopify sync failed") ∧
      ("All data synced successfully" ≠ "JDS sync failed, but Shopify sync succeeded" ∧
       "All data synced successfully" ≠ "Shopify sync failed, but JDS sync succeeded" ∧
       "All data synced successfully" ≠ "Both JDS and Shopify sync failed" ∧
       "JDS sync failed, but Shopify sync succeeded" ≠
         "Shopify sync failed, but JDS sync succeeded" ∧
       "JDS sync failed, but Shopify sync succeeded" ≠ "Both JDS and Shopify sync failed" ∧
       "Shopify sync failed, but JDS sync succeeded" ≠ "Both JDS and Shopify sync failed") := by
  intro force mgr_last now j s h
  refine ⟨?_, ?_, ?_, ?_, ?_, by decide⟩ <;>
    cases j <;> cases s <;> simp [sync_all_data, h]

/-- Witness for C8 at a concrete forced call where the supplier side
succeeded and the storefront side failed: both sides were attempted,
overall success holds, and the message names the storefront side. -/
theorem claim_C8_partial_failure_witness :
    (!true && should_skip_sync Option.none 0) = false ∧
    (sync_all_data true Option.none 0 true false).attempts = ["jds", "shopify"] ∧
    ((sync_all_data true Option.none 0 true false).success = true ↔
      (true = true ∨ false = true)) ∧
    (sync_all_data true Option.none 0 true false).message =
      "Shopify sync failed, but JDS sync succeeded" :=
  ⟨rfl,
   (claim_C8_partial_failure true Option.none 0 true false rfl).1,
   (claim_C8_partial_failure true Option.none 0 true false rfl).2.2.2.1,
   (claim_C8_partial_failure true Option.none 0 true false rfl).2.2.2.2.1⟩

/-! ## C6: retry policy of the storefront client -/

/-- C6: for both retry wrappers: a success, a validation-classified error,
or any error classified neither as validation nor as rate limiting returns
after a single call with no backoff sleeps; a persistent
rate-limit-classified error makes exactly 4 calls (the initial call plus 3
retries) sleeping the exponential backoff waits 2 ^ attempt + 1 seconds,
a non-decreasing sequence, and returns the final failing result. -/
theorem claim_C6_retry_policy :
    (∀ op : ℕ → ShopResult,
      ((op 0).success = true ∨ isValidationError (op 0) = true ∨
        (isRateLimitError (op 0) = false ∧ isValidationError (op 0) = false)) →
      update_product_price_with_retry op = { result := op 0, calls := 1, waits := [] } ∧
      create_product_with_retry op = { result := op 0, calls := 1, waits := [] }) ∧
    (∀ op : ℕ → ShopResult,
      (∀ i, (op i).success = false ∧ isRateLimitError (op i) = true ∧
        isValidationError (op i) = false) →
      update_product_price_with_retry op =
        { result := op 3, calls := 4, waits := [2 ^ 0 + 1, 2 ^ 1 + 1, 2 ^ 2 + 1] } ∧
      create_product_with_retry op =
        { result := op 3, calls := 4, waits := [2 ^ 0 + 1, 2 ^ 1 + 1, 2 ^ 2 + 1] } ∧
      (op 3).success = false ∧
      List.Chain' (fun a b => a ≤ b) [2 ^ 0 + 1, 2 ^ 1 + 1, 2 ^ 2 + 1]) := by
  constructor
  · intro op h
    have key : retryGo op 3 0 4 = { result := op 0, calls := 1, waits := [] } := by
      rcases h with hs | hv | ⟨hr, hv⟩
      · simp [retryGo, hs]
      · simp [retryGo, hv]
      · cases hs : (op 0).success
        · simp [retryGo, hs, hv, hr]
        · simp [retryGo, hs]
    exact ⟨key, key⟩
  · intro op h
    have h0 : retryGo op 3 0 4 =
        { result := op 3, calls := 4, waits := [2 ^ 0 + 1, 2 ^ 1 + 1, 2 ^ 2 + 1] } := by
      simp [retryGo, (h 0).1, (h 0).2.1, (h 0).2.2, (h 1).1, (h 1).2.1, (h 1).2.2,
        (h 2).1, (h 2).2.1, (h 2).2.2, (h 3).1, (h 3).2.1, (h 3).2.2]
    exact ⟨h0, h0, (h 3).1, by simp⟩

/-- An operation that fails with a rate-limit-classified error on every
attempt. -/
def rateLimitOp : ℕ → ShopResult :=
  fun _ => { success := false, error := "Rate limit exceeded".toList }

/-- An operation that fails with a validation-classified error on every
attempt. -/
def validationOp : ℕ → ShopResult :=
  fun _ => { success := false, error := "Validation failed: title required".toList }

/-- Witness for C6 at concrete operations: a persistent rate-limit error
is called 4 times with waits 2, 3, 5, while a validation error is never
retried. -/
theorem claim_C6_retry_policy_witness :
    ((rateLimitOp 0).success = false ∧ isRateLimitError (rateLimitOp 0) = true ∧
      isValidationError (rateLimitOp 0) = false) ∧
    update_product_price_with_retry rateLimitOp =
      { result := rateLimitOp 3, calls := 4, waits := [2 ^ 0 + 1, 2 ^ 1 + 1, 2 ^ 2 + 1] } ∧
    (rateLimitOp 3).success = false ∧
    isValidationError (validationOp 0) = true ∧
    update_product_price_with_retry validationOp =
      { result := validationOp 0, calls := 1, waits := [] } :=
  have hrl0 : isRateLimitError (rateLimitOp 0) = true := by decide
  have hrv0 : isValidationError (rateLimitOp 0) = false := by decide
  have hrl : ∀ i, (rateLimitOp i).success = false ∧ isRateLimitError (rateLimitOp i) = true ∧
      isValidationError (rateLimitOp i) = false :=
    fun _ => ⟨rfl, hrl0, hrv0⟩
  have hv : isValidationError (validationOp 0) = true := by decide
  ⟨hrl 0,
   (claim_C6_retry_policy.2 rateLimitOp hrl).1,
   (claim_C6_retry_policy.2 rateLimitOp hrl).2.2.1,
   hv,
   (claim_C6_retry_policy.1 validationOp (Or.inr (Or.inl hv))).1⟩

/-! ## C7: supplier upsert keyed by raw sku -/

lemma getD_getD {α : Type} (o : Option α) (x : α) : o.getD (o.getD x) = o.getD x := by
  cases o <;> rfl

lemma update_create_same (d : ProductData) (now rowid : ℕ) :
    update_product_from_data (create_product_from_data d now rowid) d =
      create_product_from_data d now rowid := by
  simp [update_product_from_data, create_product_from_data, getD_getD]

lemma mem_le_foldr_max (l : List ℕ) (x : ℕ) (hx : x ∈ l) : x ≤ l.foldr max 0 := by
  induction l with
  | nil => cases hx
  | cons a as ih =>
      rcases List.mem_cons.mp hx with rfl | h
      · exact le_max_left _ _
      · exact le_trans (ih h) (le_max_right _ _)

lemma id_lt_freshId (db : List JDSRow) (r : JDSRow) (hr : r ∈ db) : r.id < freshId db := by
  have := mem_le_foldr_max (db.map (fun r => r.id)) r.id (List.mem_map_of_mem _ hr)
  unfold freshId
  omega

/-- A concrete supplier record with every field present, including string
prices, written twice in the C7 scenario. -/
def sampleData : ProductData :=
  { sku := "A".toList, name := Option.some "Name".toList,
    description := Option.some "Desc".toList,
    caseQuantity := Option.some (PyVal.str "6".toList),
    lessThanCasePrice := Option.some (PyVal.str "4.50".toList),
    oneCase := Option.some (PyVal.str "4.00".toList),
    fiveCases := Option.some (PyVal.str "3.50".toList),
    tenCases := Option.some (PyVal.str "3.00".toList),
    twentyCases := Option.some (PyVal.str "2.50".toList),
    fortyCases := Option.some (PyVal.str "2.00".toList),
    image := Option.some "img".toList, thumbnail := Option.some "th".toList,
    quickImage := Option.some "qi".toList,
    availableQuantity := Option.some (PyVal.str "10".toList),
    localQuantity := Option.some (PyVal.str "2".toList) }

/-- C7 counterexample: writing sampleData at time 0 inserts a row with
last_updated 0, and writing the identical record again at time 5 leaves
the row unchanged: its last_updated is still 0, not refreshed to the
second write time, so last_updated does not advance on an update. -/
theorem claim_C7_counterexample :
    save_product_to_db [] sampleData 0 =
      Option.some [create_product_from_data sampleData 0 1] ∧
    save_product_to_db [create_product_from_data sampleData 0 1] sampleData 5 =
      Option.some [create_product_from_data sampleData 0 1] ∧
    (create_product_from_data sampleData 0 1).last_updated = 0 ∧ (0 : ℕ) ≠ 5 :=
  ⟨rfl, rfl, rfl, by decide⟩

/-- C7 amended: the upsert is keyed by raw sku and writing the same record
twice with identical data leaves exactly one row for that SKU, whose
fields hold the written data; but last_updated is set only by the insert:
the second write leaves the row, including its last_updated, unchanged,
so the timestamp does not advance on an update of an existing row. -/
theorem claim_C7_upsert :
    ∀ (db : List JDSRow) (d : ProductData) (t1 t2 : ℕ),
      d.sku ≠ [] → (∀ r ∈ db, r.sku ≠ d.sku) →
      ∃ db1 db2 : List JDSRow,
        save_product_to_db db d t1 = Option.some db1 ∧
        save_product_to_db db1 d t2 = Option.some db2 ∧
        db1 = db ++ [create_product_from_data d t1 (freshId db)] ∧
        db2 = db1 ∧
        (db2.filter (fun r => decide (r.sku = d.sku))).length = 1 ∧
        ∀ r ∈ db2, r.sku = d.sku → r.last_updated = t1 := by
  intro db d t1 t2 hsku hno
  have hfind1 : db.find? (fun r => decide (r.sku = d.sku)) = Option.none :=
    List.find?_eq_none.mpr (fun r hr => by simp [hno r hr])
  set new := create_product_from_data d t1 (freshId db) with hnew
  refine ⟨db ++ [new], db ++ [new], ?_, ?_, rfl, rfl, ?_, ?_⟩
  · simp [save_product_to_db, hsku, hfind1]
  · have hfind2 : (db ++ [new]).find? (fun r => decide (r.sku = d.sku))
        = Option.some new := by
      rw [List.find?_append, hfind1]
      have : new.sku = d.sku := rfl
      simp [List.find?, this]
    simp only [save_product_to_db, hsku, if_neg, hfind2, if_false]
    congr 1
    rw [List.map_append]
    congr 1
    · have : ∀ r ∈ db, (if r.id = new.id then update_product_from_data r d else r) = r := by
        intro r hr
        rw [if_neg]
        exact Nat.ne_of_lt (id_lt_freshId db r hr)
      rw [List.map_congr_left this]
      exact List.map_id db
    · simp only [List.map_cons, List.map_nil, List.cons.injEq, and_true]
      rw [if_pos trivial, hnew]
      exact update_create_same d t1 (freshId db)
  · rw [List.filter_append]
    have h1 : db.filter (fun r => decide (r.sku = d.sku)) = [] :=
      List.filter_eq_nil_iff.mpr (fun r hr => by simp [hno r hr])
    have h2 : new.sku = d.sku := rfl
    simp [h1, h2]
  · intro r hr hsk
    rcases List.mem_append.mp hr with h | h
    · exact absurd hsk (hno r h)
    · rw [List.mem_singleton.mp h]
      rfl

/-- Witness for C7 at the concrete record sampleData written into an empty
table at times 0 and then 5. -/
theorem claim_C7_upsert_witness :
    sampleData.sku ≠ [] ∧
    (∃ db1 db2 : List JDSRow,
      save_product_to_db [] sampleData 0 = Option.some db1 ∧
      save_product_to_db db1 sampleData 5 = Option.some db2 ∧
      db1 = [] ++ [create_product_from_data sampleData 0 (freshId [])] ∧
      db2 = db1 ∧
      (db2.filter (fun r => decide (r.sku = sampleData.sku))).length = 1 ∧
      ∀ r ∈ db2, r.sku = sampleData.sku → r.last_updated = 0) :=
  ⟨by decide,
   claim_C7_upsert [] sampleData 0 5 (by decide) (fun r hr => absurd hr (List.not_mem_nil r))⟩

/-! ## C10: background reconciliation worker -/

/-- The SKU "A", used in the concrete background-worker traces. -/
def bgA : Str := "A".toList

/-- C10 counterexample: the state with pending = {"A"} and failed = {"A"}
is reachable (request "A", the worker pops it and fails, request "A"
again, which succeeds because request_sync never consults failed_syncs),
and in it pending and failed are not disjoint. -/
theorem claim_C10_counterexample :
    BGReachable { pending := {bgA}, completed := ∅, failed := {bgA} } ∧
    ¬ Disjoint (BGState.pending { pending := {bgA}, completed := ∅, failed := {bgA} })
        (BGState.failed { pending := {bgA}, completed := ∅, failed := {bgA} }) := by
  constructor
  · have s1 : BGStep BGInit { pending := {bgA}, completed := ∅, failed := ∅ } := by
      have h := BGStep.request BGInit bgA
      have e : (request_sync BGInit bgA).1 =
          { pending := {bgA}, completed := ∅, failed := ∅ } := by
        simp [request_sync, BGInit]
      rwa [e] at h
    have s2 : BGStep { pending := {bgA}, completed := ∅, failed := ∅ }
        { pending := ∅, completed := ∅, failed := {bgA} } := by
      have h := BGStep.processFailure { pending := {bgA}, completed := ∅, failed := ∅ }
        bgA (Finset.mem_singleton_self bgA)
      simpa using h
    have s3 : BGStep { pending := ∅, completed := ∅, failed := {bgA} }
        { pending := {bgA}, completed := ∅, failed := {bgA} } := by
      have h := BGStep.request { pending := ∅, completed := ∅, failed := {bgA} } bgA
      have e : (request_sync { pending := ∅, completed := ∅, failed := {bgA} } bgA).1 =
          { pending := {bgA}, completed := ∅, failed := {bgA} } := by
        simp [request_sync]
      rwa [e] at h
    exact Relation.ReflTransGen.tail
      (Relation.ReflTransGen.tail (Relation.ReflTransGen.single s1) s2) s3
  · intro hd
    exact (Finset.disjoint_left.mp hd (Finset.mem_singleton_self bgA))
      (Finset.mem_singleton_self bgA)

/-- C10 amended: in every reachable state the pending and completed sets
are disjoint (the failed set, by the counterexample, may overlap either),
and request_sync enqueues the SKU and returns true iff it is in neither
the pending nor the completed set, leaving the state unchanged when it
returns false. -/
theorem claim_C10_worker_sets :
    (∀ st : BGState, BGReachable st → Disjoint st.pending st.completed) ∧
    (∀ (st : BGState) (sku : Str),
      ((request_sync st sku).2 = true ↔ sku ∉ st.completed ∧ sku ∉ st.pending) ∧
      ((request_sync st sku).2 = true →
        (request_sync st sku).1 =
          { pending := insert sku st.pending, completed := st.completed,
            failed := st.failed }) ∧
      ((request_sync st sku).2 = false → (request_sync st sku).1 = st)) := by
  constructor
  · intro st h
    induction h with
    | refl => simp [BGInit]
    | tail hsteps hstep ih =>
        cases hstep with
        | request sku =>
            unfold request_sync
            split_ifs with hc
            · rw [Finset.disjoint_left]
              intro a ha
              rcases Finset.mem_insert.mp ha with rfl | ha'
              · exact hc.1
              · exact fun hcomp => (Finset.disjoint_left.mp ih) ha' hcomp
            · exact ih
        | processSuccess sku hp =>
            rw [Finset.disjoint_left]
            intro a ha hcomp
            have ha' := Finset.mem_of_mem_erase ha
            have hne := Finset.ne_of_mem_erase ha
            rcases Finset.mem_insert.mp hcomp with rfl | hc
            · exact hne rfl
            · exact (Finset.disjoint_left.mp ih) ha' hc
        | processFailure sku hp =>
            rw [Finset.disjoint_left]
            intro a ha hc
            exact (Finset.disjoint_left.mp ih) (Finset.mem_of_mem_erase ha) hc
  · intro st sku
    refine ⟨?_, ?_, ?_⟩
    · by_cases hc : sku ∉ st.completed ∧ sku ∉ st.pending <;>
        simp [request_sync, hc]
    · intro h
      by_cases hc : sku ∉ st.completed ∧ sku ∉ st.pending
      · simp [request_sync, hc]
      · simp [request_sync, hc] at h
    · intro h
      by_cases hc : sku ∉ st.completed ∧ sku ∉ st.pending
      · simp [request_sync, hc] at h
      · simp [request_sync, hc]

/-- Witness for C10: the initial state is reachable with disjoint pending
and completed sets, and a repeated request for an already pending SKU
returns false. -/
theorem claim_C10_worker_sets_witness :
    BGReachable BGInit ∧
    Disjoint BGInit.pending BGInit.completed ∧
    ((request_sync { pending := {bgA}, completed := ∅, failed := ∅ } bgA).2 = true ↔
      bgA ∉ (∅ : Finset Str) ∧ bgA ∉ ({bgA} : Finset Str)) :=
  ⟨Relation.ReflTransGen.refl,
   claim_C10_worker_sets.1 BGInit Relation.ReflTransGen.refl,
   (claim_C10_worker_sets.2 { pending := {bgA}, completed := ∅, failed := ∅ } bgA).1⟩

end ProductAdder
